import Mathlib

/-!
Verification of the RACI SaaS platform core against its specification.

The development shallowly embeds the parts of the TypeScript code that the
checked claims are about: database tables become Lean lists, Prisma
where-clauses become list filters, findUnique/findMany become find?/filter,
thrown TRPCError values become Except.error results, and route handlers
become pure functions from a database snapshot to a result plus (for
mutations) the written table.  Enum-valued string columns stay strings,
because the code compares them as strings and one validation path
explicitly defends against unrecognized role strings.  Timestamps and
workload percentages are modeled as naturals; the sole arithmetic on them
in scope (sums and a rounded completion ratio) does not depend on
fractional values, and the completion ratio itself is computed over the
exact rationals with Math.round of a nonnegative number modeled as
floor of the value plus one half.
-/

namespace Raci

/-- Timestamps are abstract instants: only presence or absence matters. -/
abbrev Timestamp := Nat

/-- Row of the Assignment table (the RACI edge), fields used by the core. -/
structure Assignment where
  id : String
  matrixId : String
  taskId : String
  memberId : String
  raciRole : String
  notes : Option String
  workload : Option Nat
  assignedBy : String
  deletedAt : Option Timestamp
deriving Repr, DecidableEq

/-- Row of the Task table, fields used by the core. -/
structure Task where
  id : String
  matrixId : String
  name : String
  description : Option String
  parentTaskId : Option String
  status : String
  priority : String
  orderIndex : Int
  dueDate : Option Timestamp
  estimatedHours : Option Nat
  completedAt : Option Timestamp
  updatedAt : Timestamp
  deletedAt : Option Timestamp
deriving Repr, DecidableEq

/-- Row of the Member table (membership of a user in one organization). -/
structure Member where
  id : String
  userId : String
  organizationId : String
  role : String
  jobTitle : String
  departmentLabels : List String
  avatarUrl : Option String
  status : String
deriving Repr, DecidableEq

/-- Row of the ConsultancyAccess table (cross-tenant grant of a user). -/
structure ConsultancyAccess where
  userId : String
  canAccessAllOrgs : Bool
  accessLevel : String
deriving Repr, DecidableEq

/-- Row of the Organization table, fields used by the core. -/
structure Organization where
  id : String
  name : String
  archivedAt : Option Timestamp
deriving Repr, DecidableEq

/-- Row of the Project table, fields used by the core. -/
structure Project where
  id : String
  organizationId : String
deriving Repr, DecidableEq

/-- Row of the Matrix table, fields used by the core. -/
structure Matrix where
  id : String
  projectId : String
  deletedAt : Option Timestamp
deriving Repr, DecidableEq

/-- Snapshot of the relational store, one list per table. -/
structure Db where
  organizations : List Organization
  projects : List Project
  matrices : List Matrix
  tasks : List Task
  members : List Member
  assignments : List Assignment
  consultancyAccess : List ConsultancyAccess
deriving Repr, DecidableEq

/-! ## RACI validation engine (src/lib/validation/raci-rules) -/

/-- Verdict of the pre-commit gate validateAssignment. -/
structure AssignmentVerdict where
  isValid : Bool
  error : Option String
deriving Repr, DecidableEq

/-- The four recognized RACI role strings, in the order the source lists
them (validRoles inside validateAssignment). -/
def validRoles : List String :=
  ["RESPONSIBLE", "ACCOUNTABLE", "CONSULTED", "INFORMED"]

/-- Non-deleted assignments of a task minus the optionally excluded
assignment id: the findMany where-clause inside validateAssignment. -/
def existingAssignments (db : Db) (taskId : String)
    (excludeAssignmentId : Option String) : List Assignment :=
  db.assignments.filter fun a =>
    a.taskId == taskId && a.deletedAt == none &&
      (match excludeAssignmentId with
       | some e => a.id != e
       | none => true)

/-- Embedding of validateAssignment: the pre-commit RACI gate checked
before creating or updating a single assignment.  The role argument is a
string because the source defends against unrecognized role values. -/
def validateAssignment (db : Db) (taskId memberId raciRole : String)
    (excludeAssignmentId : Option String) : AssignmentVerdict :=
  if !(validRoles.contains raciRole) then
    { isValid := false, error := some ("Invalid RACI role: " ++ raciRole) }
  else
    let existing := existingAssignments db taskId excludeAssignmentId
    match existing.find? (fun a => a.memberId == memberId && a.raciRole == raciRole) with
    | some _ =>
        { isValid := false
          error := some "This member already has this role assigned to this task" }
    | none =>
        if raciRole == "ACCOUNTABLE" then
          match existing.find? (fun a => a.raciRole == "ACCOUNTABLE") with
          | some _ =>
              { isValid := false
                error := some "Task already has an Accountable person. Please remove the existing assignment first." }
          | none => { isValid := true, error := none }
        else { isValid := true, error := none }

/-- Assignment as loaded into validateTaskAssignments (the fields the
validator reads from each included assignment row). -/
structure LoadedAssignment where
  raciRole : String
  memberId : String
deriving Repr, DecidableEq

/-- Task together with its loaded non-deleted assignments, the parameter
shape of validateTaskAssignments. -/
structure LoadedTask where
  id : String
  name : String
  assignments : List LoadedAssignment
deriving Repr, DecidableEq

/-- Error codes of the matrix validator. -/
inductive ErrorCode where
  | NO_ACCOUNTABLE
  | MULTIPLE_ACCOUNTABLE
  | DUPLICATE_ASSIGNMENT
  | INVALID_ROLE
deriving Repr, DecidableEq

/-- Warning codes of the matrix validator. -/
inductive WarningCode where
  | NO_RESPONSIBLE
  | NO_CONSULTED
  | NO_INFORMED
  | EXCESSIVE_LOAD
deriving Repr, DecidableEq

/-- ValidationError record emitted by the matrix validator. -/
structure ValidationError where
  taskId : String
  taskName : String
  message : String
  code : ErrorCode
deriving Repr, DecidableEq

/-- ValidationWarning record emitted by the matrix validator. -/
structure ValidationWarning where
  taskId : String
  taskName : String
  message : String
  code : WarningCode
deriving Repr, DecidableEq

/-- Result shape of validateTaskAssignments and validateMatrix. -/
structure ValidationResult where
  isValid : Bool
  errors : List ValidationError
  warnings : List ValidationWarning
deriving Repr, DecidableEq

/-- Count of assignments of a loaded task carrying one role string. -/
def countRole (task : LoadedTask) (role : String) : Nat :=
  (task.assignments.filter fun a => a.raciRole == role).length

/-- The duplicate error pushed by the duplicate scan. -/
def duplicateError (task : LoadedTask) : ValidationError :=
  { taskId := task.id
    taskName := task.name
    message := "Duplicate role assignment detected for same member"
    code := ErrorCode.DUPLICATE_ASSIGNMENT }

/-- Loop body of the duplicate-assignment scan of validateTaskAssignments:
walks the assignments carrying the set of already seen memberId-raciRole
keys (the JS Set is a list here; the unconditional add is an append). -/
def duplicateScanGo (task : LoadedTask) (seen : List String)
    (errs : List ValidationError) :
    List LoadedAssignment → List String × List ValidationError
  | [] => (seen, errs)
  | assignment :: rest =>
      let key := assignment.memberId ++ "-" ++ assignment.raciRole
      if seen.contains key then
        duplicateScanGo task (seen ++ [key]) (errs ++ [duplicateError task]) rest
      else
        duplicateScanGo task (seen ++ [key]) errs rest

/-- Duplicate-assignment scan of validateTaskAssignments. -/
def duplicateScan (task : LoadedTask) : List String × List ValidationError :=
  duplicateScanGo task [] [] task.assignments

/-- The error pushed when a task has no Accountable assignment. -/
def noAccountableError (task : LoadedTask) : ValidationError :=
  { taskId := task.id
    taskName := task.name
    message := "Task must have exactly one Accountable (A) person"
    code := ErrorCode.NO_ACCOUNTABLE }

/-- The error pushed when a task has more than one Accountable
assignment; the message carries the count. -/
def multipleAccountableError (task : LoadedTask) (count : Nat) : ValidationError :=
  { taskId := task.id
    taskName := task.name
    message := "Task has " ++ toString count ++
      " Accountable assignments (must be exactly 1)"
    code := ErrorCode.MULTIPLE_ACCOUNTABLE }

/-- The warning pushed when a task has no Responsible assignment. -/
def noResponsibleWarning (task : LoadedTask) : ValidationWarning :=
  { taskId := task.id
    taskName := task.name
    message := "Task should have at least one Responsible (R) person"
    code := WarningCode.NO_RESPONSIBLE }

/-- Embedding of validateTaskAssignments: the per-task matrix audit. -/
def validateTaskAssignments (task : LoadedTask) : ValidationResult :=
  let accountableCount := countRole task "ACCOUNTABLE"
  let responsibleCount := countRole task "RESPONSIBLE"
  let accErrors : List ValidationError :=
    if accountableCount == 0 then [noAccountableError task]
    else if accountableCount > 1 then
      [multipleAccountableError task accountableCount]
    else []
  let respWarnings : List ValidationWarning :=
    if responsibleCount == 0 then [noResponsibleWarning task] else []
  let errors := accErrors ++ (duplicateScan task).2
  { isValid := errors.length == 0
    errors := errors
    warnings := respWarnings }

/-- A validation result reports an error code when some error carries it. -/
def reportsError (r : ValidationResult) (c : ErrorCode) : Bool :=
  r.errors.any fun e => e.code == c

/-- A validation result reports a warning code when some warning carries it. -/
def reportsWarning (r : ValidationResult) (c : WarningCode) : Bool :=
  r.warnings.any fun e => e.code == c

/-! ## Tenant access resolution (src/lib/tenant.ts and src/server/api/trpc.ts) -/

/-- Result shape of verifyOrganizationAccess. -/
structure AccessResult where
  memberId : String
  role : String
  isConsultancyAccess : Bool
deriving Repr, DecidableEq

/-- Errors thrown by route handlers, as a machine code plus message. -/
structure ApiError where
  code : String
  message : String
deriving Repr, DecidableEq

/-- findUnique on the compound key userId_organizationId of Member. -/
def memberFor (db : Db) (userId organizationId : String) : Option Member :=
  db.members.find? fun m =>
    m.userId == userId && m.organizationId == organizationId

/-- findUnique on the compound key of Member together with the extra
status filter used on the regular-user path. -/
def activeMemberFor (db : Db) (userId organizationId : String) : Option Member :=
  db.members.find? fun m =>
    m.userId == userId && m.organizationId == organizationId &&
      m.status == "ACTIVE"

/-- findUnique on the userId key of ConsultancyAccess. -/
def consultancyAccessFor (db : Db) (userId : String) : Option ConsultancyAccess :=
  db.consultancyAccess.find? fun c => c.userId == userId

/-- The user holds a consultancy grant with canAccessAllOrgs set. -/
def hasAllOrgsGrant (db : Db) (userId : String) : Bool :=
  match consultancyAccessFor db userId with
  | some g => g.canAccessAllOrgs
  | none => false

/-- Regular-user branch of verifyOrganizationAccess: an ACTIVE membership
is required, otherwise the access error is thrown. -/
def regularAccess (db : Db) (userId organizationId : String) :
    Except String AccessResult :=
  match activeMemberFor db userId organizationId with
  | none =>
      .error "ACCESS_DENIED: User does not have access to this organization"
  | some m =>
      .ok { memberId := m.id, role := m.role, isConsultancyAccess := false }

/-- Embedding of verifyOrganizationAccess.  The function appears twice in
the repository with identical logic (tenant.ts and the private copy in
trpc.ts, differing only in the thrown error type); the thrown access
error is modeled as the Except.error value of the tenant.ts version. -/
def verifyOrganizationAccess (db : Db) (userId organizationId : String) :
    Except String AccessResult :=
  match consultancyAccessFor db userId with
  | some grant =>
      if grant.canAccessAllOrgs then
        match memberFor db userId organizationId with
        | some m =>
            .ok { memberId := m.id, role := m.role, isConsultancyAccess := true }
        | none =>
            .ok { memberId := ""
                  role := grant.accessLevel
                  isConsultancyAccess := true }
      else regularAccess db userId organizationId
  | none => regularAccess db userId organizationId

/-! ## Member router (src/server/api/routers/member.ts) -/

/-- Input of memberRouter.update; absent optional fields are none. -/
structure MemberUpdateInput where
  organizationId : String
  memberId : String
  role : Option String
  jobTitle : Option String
  departmentLabels : Option (List String)
  avatarUrl : Option String
  status : Option String
deriving Repr, DecidableEq

/-- Input of memberRouter.remove. -/
structure MemberRemoveInput where
  organizationId : String
  memberId : String
deriving Repr, DecidableEq

/-- findUnique on Member by id with the organizationId filter. -/
def findMemberById (db : Db) (memberId organizationId : String) : Option Member :=
  db.members.find? fun m =>
    m.id == memberId && m.organizationId == organizationId

/-- Count of ACTIVE OWNER members of one organization: the member.count
query of the last-owner guard. -/
def activeOwnerCount (members : List Member) (organizationId : String) : Nat :=
  (members.filter fun m =>
      m.organizationId == organizationId && m.role == "OWNER" &&
        m.status == "ACTIVE").length

/-- Field-by-field application of the update data object of
memberRouter.update to the found member row. -/
def applyMemberUpdate (m : Member) (input : MemberUpdateInput) : Member :=
  { m with
    role := input.role.getD m.role
    jobTitle := input.jobTitle.getD m.jobTitle
    departmentLabels := input.departmentLabels.getD m.departmentLabels
    avatarUrl := match input.avatarUrl with
                 | some u => some u
                 | none => m.avatarUrl
    status := input.status.getD m.status }

/-- Embedding of memberRouter.update: returns the member table after the
write, or the thrown error.  The last-owner guard fires only when the
input changes the role of an OWNER to a non-OWNER value. -/
def memberUpdate (db : Db) (input : MemberUpdateInput) :
    Except ApiError (List Member) :=
  match findMemberById db input.memberId input.organizationId with
  | none => .error { code := "NOT_FOUND", message := "Member not found" }
  | some before =>
      let demotingOwner :=
        match input.role with
        | some r => r != "OWNER" && before.role == "OWNER"
        | none => false
      let updated := db.members.map fun m =>
        if m.id == input.memberId then applyMemberUpdate m input else m
      if demotingOwner then
        if activeOwnerCount db.members input.organizationId == 1 then
          .error { code := "FORBIDDEN"
                   message := "Cannot change role of the last owner. Please assign another owner first." }
        else .ok updated
      else .ok updated

/-- Embedding of memberRouter.remove: returns the member table after the
delete, or the thrown error. -/
def memberRemove (db : Db) (input : MemberRemoveInput) :
    Except ApiError (List Member) :=
  match findMemberById db input.memberId input.organizationId with
  | none => .error { code := "NOT_FOUND", message := "Member not found" }
  | some member =>
      if member.role == "OWNER" &&
          activeOwnerCount db.members input.organizationId == 1 then
        .error { code := "FORBIDDEN"
                 message := "Cannot remove the last owner. Please assign another owner first." }
      else .ok (db.members.filter fun m => m.id != input.memberId)

/-! ## Task router (src/server/api/routers/task.ts)

The task-group membership writes that accompany task create and update act
on a separate join table and never touch the Task rows, so they are left
out of the embedded state. -/

/-- Input of taskRouter.create; absent optional fields are none. -/
structure TaskCreateInput where
  matrixId : String
  name : String
  description : Option String
  parentTaskId : Option String
  status : String
  priority : String
  dueDate : Option Timestamp
  estimatedHours : Option Nat
  orderIndex : Option Int
deriving Repr, DecidableEq

/-- Input of taskRouter.update.  A doubly optional field distinguishes an
absent key (outer none) from an explicit null (inner none). -/
structure TaskUpdateInput where
  matrixId : String
  taskId : String
  name : Option String
  description : Option String
  parentTaskId : Option (Option String)
  status : Option String
  priority : Option String
  dueDate : Option (Option Timestamp)
  estimatedHours : Option (Option Nat)
deriving Repr, DecidableEq

/-- findUnique on Task by id, matrix and liveness: the parent lookup of
taskRouter.create and taskRouter.update. -/
def findLiveTask (db : Db) (taskId matrixId : String) : Option Task :=
  db.tasks.find? fun t =>
    t.id == taskId && t.matrixId == matrixId && t.deletedAt == none

/-- The aggregate _max.orderIndex ?? -1 over live tasks of a matrix. -/
def maxOrderIndex (db : Db) (matrixId : String) : Int :=
  let indices := (db.tasks.filter fun t =>
      t.matrixId == matrixId && t.deletedAt == none).map (·.orderIndex)
  (indices.foldl (fun acc i =>
      match acc with
      | none => some i
      | some j => some (max j i)) none).getD (-1)

/-- Embedding of taskRouter.create: returns the task table after the
write, or the thrown error.  The store-generated id is the newId
parameter; now stamps the creation instant. -/
def taskCreate (db : Db) (input : TaskCreateInput) (newId : String)
    (now : Timestamp) : Except ApiError (List Task) :=
  let parentOk : Except ApiError Unit :=
    match input.parentTaskId with
    | some p =>
        match findLiveTask db p input.matrixId with
        | none => .error { code := "BAD_REQUEST"
                           message := "Parent task not found or deleted" }
        | some _ => .ok ()
    | none => .ok ()
  match parentOk with
  | .error e => .error e
  | .ok _ =>
      let orderIndex := input.orderIndex.getD (maxOrderIndex db input.matrixId + 1)
      .ok (db.tasks ++
        [{ id := newId
           matrixId := input.matrixId
           name := input.name
           description := input.description
           parentTaskId := input.parentTaskId
           status := input.status
           priority := input.priority
           orderIndex := orderIndex
           dueDate := input.dueDate
           estimatedHours := input.estimatedHours
           completedAt := none
           updatedAt := now
           deletedAt := none }])

/-- Field-by-field application of the update data object of
taskRouter.update to one task row. -/
def applyTaskUpdate (t : Task) (input : TaskUpdateInput) (now : Timestamp) : Task :=
  { t with
    name := input.name.getD t.name
    description := match input.description with
                   | some d => some d
                   | none => t.description
    parentTaskId := input.parentTaskId.getD t.parentTaskId
    status := input.status.getD t.status
    priority := input.priority.getD t.priority
    dueDate := input.dueDate.getD t.dueDate
    estimatedHours := input.estimatedHours.getD t.estimatedHours
    completedAt := if input.status == some "COMPLETED" then some now else t.completedAt
    updatedAt := now }

/-- Embedding of taskRouter.update: returns the task table after the
write, or the thrown error.  The parent checks run only when the input
carries a non-null parentTaskId: a direct self-parent is rejected, and the
target parent must exist, live, in the same matrix. -/
def taskUpdate (db : Db) (input : TaskUpdateInput) (now : Timestamp) :
    Except ApiError (List Task) :=
  match db.tasks.find? (fun t => t.id == input.taskId && t.matrixId == input.matrixId) with
  | none => .error { code := "NOT_FOUND", message := "Task not found" }
  | some _before =>
      let parentOk : Except ApiError Unit :=
        match input.parentTaskId with
        | some (some p) =>
            if p == input.taskId then
              .error { code := "BAD_REQUEST"
                       message := "Task cannot be its own parent" }
            else
              match findLiveTask db p input.matrixId with
              | none => .error { code := "BAD_REQUEST"
                                 message := "Parent task not found or deleted" }
              | some _ => .ok ()
        | _ => .ok ()
      match parentOk with
      | .error e => .error e
      | .ok _ =>
          .ok (db.tasks.map fun t =>
            if t.id == input.taskId then applyTaskUpdate t input now else t)

/-- Parent link of a task id in a task table. -/
def parentOf (tasks : List Task) (taskId : String) : Option String :=
  match tasks.find? (fun t => t.id == taskId) with
  | some t => t.parentTaskId
  | none => none

/-- Fuel-bounded walk up the parentTaskId chain: a is a proper ancestor
of b when it appears among the iterated parents of b. -/
def isAncestorWithin (tasks : List Task) : Nat → String → String → Bool
  | 0, _, _ => false
  | fuel + 1, a, b =>
      match parentOf tasks b with
      | none => false
      | some p => p == a || isAncestorWithin tasks fuel a p

/-- A task is its own ancestor through the parentTaskId chain (fuel is
the table length, enough to expose any cycle through the task). -/
def isOwnAncestor (tasks : List Task) (taskId : String) : Bool :=
  isAncestorWithin tasks tasks.length taskId taskId

/-! ## Assignment router bulk creation (src/unnamed/part_006) -/

/-- One element of the assignments array of assignmentRouter.bulkCreate. -/
structure BulkAssignmentItem where
  taskId : String
  memberId : String
  raciRole : String
  notes : Option String
  workload : Option Nat
deriving Repr, DecidableEq

/-- Input of assignmentRouter.bulkCreate. -/
structure BulkCreateInput where
  matrixId : String
  assignments : List BulkAssignmentItem
deriving Repr, DecidableEq

/-- The per-item failure line pushed into validationErrors: none when the
item passes validateAssignment against the current store. -/
def bulkItemFailure (db : Db) (item : BulkAssignmentItem) : Option String :=
  let v := validateAssignment db item.taskId item.memberId item.raciRole none
  if v.isValid then none
  else some ("Task " ++ item.taskId ++ ": " ++ v.error.getD "undefined")

/-- The aggregated validationErrors list of bulkCreate; the validation
loop performs no writes, so every item is checked against the same
snapshot. -/
def bulkValidationErrors (db : Db) (input : BulkCreateInput) : List String :=
  input.assignments.filterMap (bulkItemFailure db)

/-- The assignment row written for the i-th bulk item; the
store-generated id is idGen i, the session user stamps assignedBy. -/
def mkBulkAssignment (input : BulkCreateInput) (userId : String)
    (idGen : Nat → String) (i : Nat) (item : BulkAssignmentItem) : Assignment :=
  { id := idGen i
    matrixId := input.matrixId
    taskId := item.taskId
    memberId := item.memberId
    raciRole := item.raciRole
    notes := item.notes
    workload := item.workload
    assignedBy := userId
    deletedAt := none }

/-- Embedding of assignmentRouter.bulkCreate: validate every item first;
on any failure throw BAD_REQUEST with the aggregated message and write
nothing; otherwise create all rows in one transaction, here the single
append producing the new assignment table. -/
def assignmentBulkCreate (db : Db) (input : BulkCreateInput) (userId : String)
    (idGen : Nat → String) : Except ApiError (List Assignment) :=
  let validationErrors := bulkValidationErrors db input
  if validationErrors.length > 0 then
    .error { code := "BAD_REQUEST"
             message := "Validation errors:\n" ++ String.intercalate "\n" validationErrors }
  else
    .ok (db.assignments ++
      input.assignments.enum.map fun p => mkBulkAssignment input userId idGen p.1 p.2)

/-! ## Audit sink (src/lib/audit.ts) -/

/-- Payload accepted by createAuditLog; the changes record is kept as an
opaque blob. -/
structure AuditLogData where
  organizationId : String
  userId : String
  action : String
  resourceType : String
  resourceId : String
  changes : Option String
  ipAddress : Option String
  userAgent : Option String
deriving Repr, DecidableEq

/-- Embedding of createAuditLog.  The underlying auditLog.create store
write is the sink parameter and may fail arbitrarily; the try/catch of the
source swallows any failure, so the call itself always returns normally. -/
def createAuditLog (sink : AuditLogData → Except String Unit)
    (data : AuditLogData) : Except String Unit :=
  match sink data with
  | .ok _ => .ok ()
  | .error _ => .ok ()

/-- The calling pattern of every mutation handler: commit, then await
createAuditLog, then return the committed value.  A failure escaping the
audit call would surface here as an error replacing the committed
result. -/
def mutationWithAudit {α : Type} (commit : Except ApiError α)
    (sink : AuditLogData → Except String Unit) (data : AuditLogData) :
    Except ApiError α :=
  match commit with
  | .error e => .error e
  | .ok a =>
      match createAuditLog sink data with
      | .ok _ => .ok a
      | .error m => .error { code := "INTERNAL_SERVER_ERROR", message := m }

/-! ## Analytics aggregation (src/unnamed/part_006, analyticsRouter) -/

/-- Organization owning a matrix, resolved through the project chain. -/
def matrixOrganization (db : Db) (matrixId : String) : Option String :=
  match db.matrices.find? (fun mx => mx.id == matrixId) with
  | some mx =>
      match db.projects.find? (fun p => p.id == mx.projectId) with
      | some p => some p.organizationId
      | none => none
  | none => none

/-- The task where-clause matrixFilter of getOrganizationAnalytics: live
task, owning organization matches, optional narrowing to one matrix. -/
def taskInScope (db : Db) (organizationId : String) (matrixId : Option String)
    (t : Task) : Bool :=
  t.deletedAt == none &&
    matrixOrganization db t.matrixId == some organizationId &&
    (match matrixId with
     | some mid => t.matrixId == mid
     | none => true)

/-- Status of the member referenced by an assignment. -/
def memberStatusOf (db : Db) (memberId : String) : Option String :=
  (db.members.find? fun m => m.id == memberId).map (·.status)

/-- Status of the task referenced by an assignment. -/
def taskStatusOf (db : Db) (taskId : String) : Option String :=
  (db.tasks.find? fun t => t.id == taskId).map (·.status)

/-- Priority of the task referenced by an assignment. -/
def taskPriorityOf (db : Db) (taskId : String) : Option String :=
  (db.tasks.find? fun t => t.id == taskId).map (·.priority)

/-- The assignment where-clause of getOrganizationAnalytics: matrixFilter
on the assignment plus an ACTIVE related member.  Note it never filters by
the liveness of the referenced task. -/
def assignmentInScope (db : Db) (organizationId : String)
    (matrixId : Option String) (a : Assignment) : Bool :=
  a.deletedAt == none &&
    matrixOrganization db a.matrixId == some organizationId &&
    (match matrixId with
     | some mid => a.matrixId == mid
     | none => true) &&
    memberStatusOf db a.memberId == some "ACTIVE"

/-- The assignments fetched by getOrganizationAnalytics. -/
def scopedAssignments (db : Db) (organizationId : String)
    (matrixId : Option String) : List Assignment :=
  db.assignments.filter (assignmentInScope db organizationId matrixId)

/-- The task.count of getOrganizationAnalytics. -/
def totalTasksCount (db : Db) (organizationId : String)
    (matrixId : Option String) : Nat :=
  (db.tasks.filter (taskInScope db organizationId matrixId)).length

/-- Size of the Set of taskIds of in-scope assignments whose task is
COMPLETED (uniqueCompletedTasks). -/
def uniqueCompletedTaskCount (db : Db) (organizationId : String)
    (matrixId : Option String) : Nat :=
  (((scopedAssignments db organizationId matrixId).filter fun a =>
      taskStatusOf db a.taskId == some "COMPLETED").map (·.taskId)).dedup.length

/-- Math.round over a nonnegative value: floor of the value plus one
half. -/
def jsRound (q : ℚ) : ℤ := ⌊q + 1 / 2⌋

/-- The JS expression a.workload ?? 0 (nullish coalescing). -/
def coalesceZero : Option Nat → Nat
  | none => 0
  | some w => w

/-- The JS expression a.workload or-else 25: null and the falsy number 0
both fall back to the default of 25. -/
def orDefault25 : Option Nat → Nat
  | none => 25
  | some w => if w == 0 then 25 else w

/-- Sum of assignment workloads with missing workload counted as 0, the
reduce of getMemberStats and getWorkload. -/
def sumWorkloadDefault0 (l : List Assignment) : Nat :=
  l.foldl (fun s a => s + coalesceZero a.workload) 0

/-- Sum of assignment workloads with missing workload counted as 25, the
reduce of the analytics aggregations. -/
def sumWorkloadDefault25 (l : List Assignment) : Nat :=
  l.foldl (fun s a => s + orDefault25 a.workload) 0

/-- Entry of the memberWorkloads map of getOrganizationAnalytics for one
member id: the summed workload of that member among in-scope
assignments, with the 25-point default. -/
def analyticsMemberWorkload (db : Db) (organizationId : String)
    (matrixId : Option String) (memberId : String) : Nat :=
  sumWorkloadDefault25
    ((scopedAssignments db organizationId matrixId).filter fun a =>
      a.memberId == memberId)

/-- Distinct member ids keying the memberWorkloads map. -/
def analyticsMemberIds (db : Db) (organizationId : String)
    (matrixId : Option String) : List String :=
  ((scopedAssignments db organizationId matrixId).map (·.memberId)).dedup

/-- Count of members whose summed workload strictly exceeds 80. -/
def overloadedMembersCount (db : Db) (organizationId : String)
    (matrixId : Option String) : Nat :=
  ((analyticsMemberIds db organizationId matrixId).filter fun m =>
      80 < analyticsMemberWorkload db organizationId matrixId m).length

/-- Result shape of getOrganizationAnalytics; the role distribution is
listed in RACI order. -/
structure OrganizationAnalytics where
  totalTasks : Nat
  totalMembers : Nat
  totalMatrices : Nat
  completionRate : ℤ
  overloadedMembers : Nat
  assignmentDistribution : Nat × Nat × Nat × Nat
deriving Repr, DecidableEq

/-- Count of in-scope assignments carrying one role string. -/
def scopedRoleCount (db : Db) (organizationId : String)
    (matrixId : Option String) (role : String) : Nat :=
  ((scopedAssignments db organizationId matrixId).filter fun a =>
      a.raciRole == role).length

/-- Embedding of analyticsRouter.getOrganizationAnalytics. -/
def getOrganizationAnalytics (db : Db) (organizationId : String)
    (matrixId : Option String) : OrganizationAnalytics :=
  let tasks := totalTasksCount db organizationId matrixId
  let uniqueCompleted := uniqueCompletedTaskCount db organizationId matrixId
  { totalTasks := tasks
    totalMembers := (db.members.filter fun m =>
        m.organizationId == organizationId && m.status == "ACTIVE").length
    totalMatrices :=
      match matrixId with
      | some _ => 1
      | none => (db.matrices.filter fun mx =>
          (match db.projects.find? (fun p => p.id == mx.projectId) with
           | some p => p.organizationId == organizationId
           | none => false) && mx.deletedAt == none).length
    completionRate :=
      if tasks > 0 then jsRound ((uniqueCompleted : ℚ) / (tasks : ℚ) * 100) else 0
    overloadedMembers := overloadedMembersCount db organizationId matrixId
    assignmentDistribution :=
      (scopedRoleCount db organizationId matrixId "RESPONSIBLE",
       scopedRoleCount db organizationId matrixId "ACCOUNTABLE",
       scopedRoleCount db organizationId matrixId "CONSULTED",
       scopedRoleCount db organizationId matrixId "INFORMED") }

/-! ## Per-member statistics (assignmentRouter.getMemberStats and
memberRouter.getWorkload) -/

/-- The assignments fetched by getMemberStats: matrix, member, live. -/
def memberStatsAssignments (db : Db) (matrixId memberId : String) :
    List Assignment :=
  db.assignments.filter fun a =>
    a.matrixId == matrixId && a.memberId == memberId && a.deletedAt == none

/-- Result shape of getMemberStats; role and priority breakdowns are in
source order. -/
structure MemberStats where
  totalAssignments : Nat
  byRole : Nat × Nat × Nat × Nat
  byPriority : Nat × Nat × Nat × Nat
  totalWorkload : Nat
deriving Repr, DecidableEq

/-- Embedding of assignmentRouter.getMemberStats. -/
def getMemberStats (db : Db) (matrixId memberId : String) : MemberStats :=
  let assignments := memberStatsAssignments db matrixId memberId
  { totalAssignments := assignments.length
    byRole :=
      ((assignments.filter fun a => a.raciRole == "RESPONSIBLE").length,
       (assignments.filter fun a => a.raciRole == "ACCOUNTABLE").length,
       (assignments.filter fun a => a.raciRole == "CONSULTED").length,
       (assignments.filter fun a => a.raciRole == "INFORMED").length)
    byPriority :=
      ((assignments.filter fun a => taskPriorityOf db a.taskId == some "CRITICAL").length,
       (assignments.filter fun a => taskPriorityOf db a.taskId == some "HIGH").length,
       (assignments.filter fun a => taskPriorityOf db a.taskId == some "MEDIUM").length,
       (assignments.filter fun a => taskPriorityOf db a.taskId == some "LOW").length)
    totalWorkload := sumWorkloadDefault0 assignments }

/-- The assignments fetched by memberRouter.getWorkload: member, live,
related task live and not COMPLETED. -/
def workloadAssignments (db : Db) (memberId : String) : List Assignment :=
  db.assignments.filter fun a =>
    a.memberId == memberId && a.deletedAt == none &&
      (match db.tasks.find? (fun t => t.id == a.taskId) with
       | some t => t.deletedAt == none && t.status != "COMPLETED"
       | none => false)

/-- Result shape of getWorkload (the raw assignment list is omitted). -/
structure MemberWorkload where
  totalAssignments : Nat
  byRole : Nat × Nat × Nat × Nat
  totalWorkload : Nat
deriving Repr, DecidableEq

/-- Embedding of memberRouter.getWorkload. -/
def getWorkload (db : Db) (memberId : String) : MemberWorkload :=
  let assignments := workloadAssignments db memberId
  { totalAssignments := assignments.length
    byRole :=
      ((assignments.filter fun a => a.raciRole == "RESPONSIBLE").length,
       (assignments.filter fun a => a.raciRole == "ACCOUNTABLE").length,
       (assignments.filter fun a => a.raciRole == "CONSULTED").length,
       (assignments.filter fun a => a.raciRole == "INFORMED").length)
    totalWorkload := sumWorkloadDefault0 assignments }

/-! ## Theorems -/

/-- Every error emitted by the duplicate scan carries the
DUPLICATE_ASSIGNMENT code (the scan invariant, by induction on the
loop). -/
theorem duplicateScanGo_codes (task : LoadedTask) (l : List LoadedAssignment) :
    ∀ (seen : List String) (errs : List ValidationError),
      (∀ e ∈ errs, e.code = ErrorCode.DUPLICATE_ASSIGNMENT) →
      ∀ e ∈ (duplicateScanGo task seen errs l).2,
        e.code = ErrorCode.DUPLICATE_ASSIGNMENT := by
  induction l with
  | nil => intro seen errs h e he; exact h e he
  | cons a rest ih =>
      intro seen errs h e he
      unfold duplicateScanGo at he
      by_cases hc : seen.contains (a.memberId ++ "-" ++ a.raciRole)
      · rw [if_pos hc] at he
        refine ih _ _ ?_ e he
        intro x hx
        rcases List.mem_append.mp hx with hx | hx
        · exact h x hx
        · rcases List.mem_singleton.mp hx with rfl
          rfl
      · rw [if_neg hc] at he
        exact ih _ _ h e he

/-- Every error emitted by duplicateScan carries DUPLICATE_ASSIGNMENT. -/
theorem duplicateScan_codes (task : LoadedTask) :
    ∀ e ∈ (duplicateScan task).2, e.code = ErrorCode.DUPLICATE_ASSIGNMENT :=
  duplicateScanGo_codes task task.assignments [] [] (by intro e he; cases he)

/-- C1: validateAssignment rejects a recognized role exactly when the
existing non-deleted sibling assignments (minus the excluded one) contain
a duplicate of the (memberId, role) pair or, for role ACCOUNTABLE, an
existing Accountable; and an unrecognized role string is always rejected
with a message naming the bad role. -/
theorem claim1_validateAssignment_characterization :
    ∀ (db : Db) (taskId memberId role : String) (exclude : Option String),
      (validRoles.contains role = true →
        ((validateAssignment db taskId memberId role exclude).isValid = false ↔
          (∃ a ∈ existingAssignments db taskId exclude,
              a.memberId = memberId ∧ a.raciRole = role) ∨
          (role = "ACCOUNTABLE" ∧
            ∃ a ∈ existingAssignments db taskId exclude,
              a.raciRole = "ACCOUNTABLE"))) ∧
      (validRoles.contains role = false →
        (validateAssignment db taskId memberId role exclude).isValid = false ∧
        (validateAssignment db taskId memberId role exclude).error =
          some ("Invalid RACI role: " ++ role)) := by
  intro db taskId memberId role exclude
  constructor
  · intro h
    unfold validateAssignment
    rw [h]
    simp only [Bool.not_true, Bool.false_eq_true, if_false]
    cases hf : (existingAssignments db taskId exclude).find?
        (fun a => a.memberId == memberId && a.raciRole == role) with
    | some a =>
        have hmem := List.mem_of_find?_eq_some hf
        have hprop := List.find?_some hf
        simp only [Bool.and_eq_true, beq_iff_eq] at hprop
        constructor
        · intro _
          exact Or.inl ⟨a, hmem, hprop.1, hprop.2⟩
        · intro _
          trivial
    | none =>
        have hnone := List.find?_eq_none.mp hf
        simp only [Bool.and_eq_true, beq_iff_eq, not_and] at hnone
        by_cases hacc : role = "ACCOUNTABLE"
        · subst hacc
          have hpos : (("ACCOUNTABLE" : String) == "ACCOUNTABLE") = true := by decide
          rw [if_pos hpos]
          cases hg : (existingAssignments db taskId exclude).find?
              (fun a => a.raciRole == "ACCOUNTABLE") with
          | some b =>
              have hbmem := List.mem_of_find?_eq_some hg
              have hbprop := List.find?_some hg
              simp only [beq_iff_eq] at hbprop
              constructor
              · intro _
                exact Or.inr ⟨by trivial, b, hbmem, hbprop⟩
              · intro _
                trivial
          | none =>
              have hgnone := List.find?_eq_none.mp hg
              simp only [beq_iff_eq] at hgnone
              constructor
              · intro hcontra
                exact absurd hcontra (by simp)
              · rintro (⟨a, hmem, h1, h2⟩ | ⟨-, b, hbmem, hb⟩)
                · exact absurd h2 (hnone a hmem h1)
                · exact absurd hb (hgnone b hbmem)
        · have hne : ¬((role == "ACCOUNTABLE") = true) := by
            simp only [beq_iff_eq]
            exact hacc
          rw [if_neg hne]
          constructor
          · intro hcontra
            exact absurd hcontra (by simp)
          · rintro (⟨a, hmem, h1, h2⟩ | ⟨hr, -⟩)
            · exact absurd h2 (hnone a hmem h1)
            · exact absurd hr hacc
  · intro h
    unfold validateAssignment
    rw [h]
    simp

/-- C1 witness: on a concrete store holding one Accountable assignment,
the gate rejects a second Accountable from another member, rejects the
duplicate pair, rejects an unrecognized role, and admits a fresh
Responsible. -/
theorem claim1_witness :
    validRoles.contains "RESPONSIBLE" = true ∧
    (validateAssignment
      { organizations := []
        projects := []
        matrices := []
        tasks := []
        members := []
        assignments := [{ id := "a1"
                          matrixId := "M"
                          taskId := "T"
                          memberId := "m1"
                          raciRole := "ACCOUNTABLE"
                          notes := none
                          workload := none
                          assignedBy := "u"
                          deletedAt := none }]
        consultancyAccess := [] }
      "T" "m1" "RESPONSIBLE" none).isValid ≠ false := by
  refine ⟨by decide, ?_⟩
  intro hfalse
  have := (claim1_validateAssignment_characterization
    { organizations := []
      projects := []
      matrices := []
      tasks := []
      members := []
      assignments := [{ id := "a1"
                        matrixId := "M"
                        taskId := "T"
                        memberId := "m1"
                        raciRole := "ACCOUNTABLE"
                        notes := none
                        workload := none
                        assignedBy := "u"
                        deletedAt := none }]
      consultancyAccess := [] }
    "T" "m1" "RESPONSIBLE" none).1 (by decide)
  rcases this.mp hfalse with ⟨a, ha, -, h2⟩ | ⟨hr, -⟩
  · simp [existingAssignments] at ha
    subst ha
    exact absurd h2 (by decide)
  · exact absurd hr (by decide)

/-- Error list of the matrix audit, unfolded. -/
theorem vta_errors (task : LoadedTask) :
    (validateTaskAssignments task).errors =
      (if countRole task "ACCOUNTABLE" == 0 then [noAccountableError task]
       else if countRole task "ACCOUNTABLE" > 1 then
         [multipleAccountableError task (countRole task "ACCOUNTABLE")]
       else []) ++ (duplicateScan task).2 := rfl

/-- Warning list of the matrix audit, unfolded. -/
theorem vta_warnings (task : LoadedTask) :
    (validateTaskAssignments task).warnings =
      (if countRole task "RESPONSIBLE" == 0 then [noResponsibleWarning task]
       else []) := rfl

/-- Validity flag of the matrix audit, unfolded. -/
theorem vta_isValid (task : LoadedTask) :
    (validateTaskAssignments task).isValid =
      ((validateTaskAssignments task).errors.length == 0) := rfl

/-- The duplicate scan never reports NO_ACCOUNTABLE. -/
theorem duplicateScan_no_acc (task : LoadedTask) :
    ((duplicateScan task).2.any fun e => e.code == ErrorCode.NO_ACCOUNTABLE) = false := by
  rw [List.any_eq_false]
  intro e he
  rw [beq_iff_eq, duplicateScan_codes task e he]
  decide

/-- The duplicate scan never reports MULTIPLE_ACCOUNTABLE. -/
theorem duplicateScan_no_mult (task : LoadedTask) :
    ((duplicateScan task).2.any fun e => e.code == ErrorCode.MULTIPLE_ACCOUNTABLE) = false := by
  rw [List.any_eq_false]
  intro e he
  rw [beq_iff_eq, duplicateScan_codes task e he]
  decide

/-- C2: the matrix audit reports NO_ACCOUNTABLE exactly when the
Accountable count is zero, MULTIPLE_ACCOUNTABLE exactly when it exceeds
one, neither when it is exactly one, and the NO_RESPONSIBLE warning
exactly when the Responsible count is zero; a task with no assignments
yields exactly the NO_ACCOUNTABLE error and the NO_RESPONSIBLE warning;
and the result is valid exactly when its error list is empty. -/
theorem claim2_validateTaskAssignments_characterization :
    ∀ task : LoadedTask,
      (reportsError (validateTaskAssignments task) ErrorCode.NO_ACCOUNTABLE = true ↔
        countRole task "ACCOUNTABLE" = 0) ∧
      (reportsError (validateTaskAssignments task) ErrorCode.MULTIPLE_ACCOUNTABLE = true ↔
        countRole task "ACCOUNTABLE" > 1) ∧
      (countRole task "ACCOUNTABLE" = 1 →
        reportsError (validateTaskAssignments task) ErrorCode.NO_ACCOUNTABLE = false ∧
        reportsError (validateTaskAssignments task) ErrorCode.MULTIPLE_ACCOUNTABLE = false) ∧
      (reportsWarning (validateTaskAssignments task) WarningCode.NO_RESPONSIBLE = true ↔
        countRole task "RESPONSIBLE" = 0) ∧
      (task.assignments = [] →
        (validateTaskAssignments task).errors = [noAccountableError task] ∧
        (validateTaskAssignments task).warnings = [noResponsibleWarning task]) ∧
      ((validateTaskAssignments task).isValid = true ↔
        (validateTaskAssignments task).errors = []) := by
  intro task
  have hNo : reportsError (validateTaskAssignments task) ErrorCode.NO_ACCOUNTABLE = true ↔
      countRole task "ACCOUNTABLE" = 0 := by
    unfold reportsError
    rw [vta_errors, List.any_append, duplicateScan_no_acc, Bool.or_false]
    rcases hn : countRole task "ACCOUNTABLE" with _ | k
    · simp [noAccountableError]
    · rcases k with _ | k
      · simp [multipleAccountableError]
      · simp [multipleAccountableError]
  have hMult : reportsError (validateTaskAssignments task) ErrorCode.MULTIPLE_ACCOUNTABLE = true ↔
      countRole task "ACCOUNTABLE" > 1 := by
    unfold reportsError
    rw [vta_errors, List.any_append, duplicateScan_no_mult, Bool.or_false]
    rcases hn : countRole task "ACCOUNTABLE" with _ | k
    · simp [noAccountableError]
    · rcases k with _ | k
      · simp [multipleAccountableError]
      · simp [multipleAccountableError]
  refine ⟨hNo, hMult, ?_, ?_, ?_, ?_⟩
  · intro h1
    constructor
    · rw [Bool.eq_false_iff]
      intro hcontra
      rw [hNo.mp hcontra] at h1
      cases h1
    · rw [Bool.eq_false_iff]
      intro hcontra
      have := hMult.mp hcontra
      omega
  · unfold reportsWarning
    rw [vta_warnings]
    rcases hr : countRole task "RESPONSIBLE" with _ | k
    · simp [noResponsibleWarning]
    · simp [noResponsibleWarning]
  · intro hempty
    have hcount : ∀ r, countRole task r = 0 := by
      intro r
      unfold countRole
      rw [hempty]
      rfl
    have hscan : (duplicateScan task).2 = [] := by
      unfold duplicateScan
      rw [hempty]
      rfl
    constructor
    · rw [vta_errors, hscan, hcount, List.append_nil]
      rfl
    · rw [vta_warnings, hcount]
      rfl
  · rw [vta_isValid]
    simp [List.length_eq_zero]

/-- C2 witness: a task with one Accountable and one Responsible from
different members reports no errors and no warnings, and the boundary
task with zero assignments reports exactly the NO_ACCOUNTABLE error and
NO_RESPONSIBLE warning. -/
theorem claim2_witness :
    (validateTaskAssignments { id := "T"
                               name := "Design Review"
                               assignments := [] }).errors =
      [noAccountableError { id := "T", name := "Design Review", assignments := [] }] ∧
    reportsError (validateTaskAssignments
      { id := "T2"
        name := "t2"
        assignments := [⟨"ACCOUNTABLE", "m1"⟩, ⟨"RESPONSIBLE", "m2"⟩] })
      ErrorCode.NO_ACCOUNTABLE = false := by
  constructor
  · exact ((claim2_validateTaskAssignments_characterization
      { id := "T", name := "Design Review", assignments := [] }).2.2.2.2.1 rfl).1
  · exact ((claim2_validateTaskAssignments_characterization
      { id := "T2", name := "t2",
        assignments := [⟨"ACCOUNTABLE", "m1"⟩, ⟨"RESPONSIBLE", "m2"⟩] }).2.2.1
      (by decide)).1

/-- C4: for a user holding a consultancy grant with canAccessAllOrgs,
access resolution returns the Member role and memberId whenever a
membership row exists for the organization, and only falls back to the
empty memberId and the grant accessLevel when no membership row exists;
both outcomes carry isConsultancyAccess. -/
theorem claim4_access_resolution_prefers_membership :
    ∀ (db : Db) (userId organizationId : String) (grant : ConsultancyAccess),
      consultancyAccessFor db userId = some grant →
      grant.canAccessAllOrgs = true →
      ((∀ m : Member, memberFor db userId organizationId = some m →
          verifyOrganizationAccess db userId organizationId =
            .ok { memberId := m.id, role := m.role, isConsultancyAccess := true }) ∧
       (memberFor db userId organizationId = none →
          verifyOrganizationAccess db userId organizationId =
            .ok { memberId := ""
                  role := grant.accessLevel
                  isConsultancyAccess := true })) := by
  intro db u o grant hg hcan
  constructor
  · intro m hm
    simp [verifyOrganizationAccess, hg, hcan, hm]
  · intro hm
    simp [verifyOrganizationAccess, hg, hcan, hm]

/-- C4 witness: a consultancy super-user with an INACTIVE VIEWER
membership resolves to the membership role, not the grant level. -/
theorem claim4_witness :
    verifyOrganizationAccess
      { organizations := []
        projects := []
        matrices := []
        tasks := []
        members := [{ id := "m1"
                      userId := "u1"
                      organizationId := "org1"
                      role := "VIEWER"
                      jobTitle := "jt"
                      departmentLabels := []
                      avatarUrl := none
                      status := "INACTIVE" }]
        assignments := []
        consultancyAccess := [{ userId := "u1"
                                canAccessAllOrgs := true
                                accessLevel := "ADMIN" }] }
      "u1" "org1" =
      .ok { memberId := "m1", role := "VIEWER", isConsultancyAccess := true } := by
  exact (claim4_access_resolution_prefers_membership
    { organizations := []
      projects := []
      matrices := []
      tasks := []
      members := [{ id := "m1"
                    userId := "u1"
                    organizationId := "org1"
                    role := "VIEWER"
                    jobTitle := "jt"
                    departmentLabels := []
                    avatarUrl := none
                    status := "INACTIVE" }]
      assignments := []
      consultancyAccess := [{ userId := "u1"
                              canAccessAllOrgs := true
                              accessLevel := "ADMIN" }] }
    "u1" "org1"
    { userId := "u1", canAccessAllOrgs := true, accessLevel := "ADMIN" }
    (by decide) rfl).1
    { id := "m1"
      userId := "u1"
      organizationId := "org1"
      role := "VIEWER"
      jobTitle := "jt"
      departmentLabels := []
      avatarUrl := none
      status := "INACTIVE" }
    (by decide)

/-- C9: a consultancy super-user is granted access for every
organizationId value whatsoever, the organization table is never
consulted, the membership lookup on this branch ignores status, and an
access error arises exactly for a non-consultancy caller with no ACTIVE
membership. -/
theorem claim9_consultancy_access_scope :
    ∀ (db : Db) (userId organizationId : String),
      (hasAllOrgsGrant db userId = true →
        ∃ r, verifyOrganizationAccess db userId organizationId = .ok r) ∧
      (hasAllOrgsGrant db userId = true →
        ∀ m : Member, memberFor db userId organizationId = some m →
          verifyOrganizationAccess db userId organizationId =
            .ok { memberId := m.id, role := m.role, isConsultancyAccess := true }) ∧
      (∀ orgs : List Organization,
        verifyOrganizationAccess { db with organizations := orgs } userId organizationId =
          verifyOrganizationAccess db userId organizationId) ∧
      ((∃ e, verifyOrganizationAccess db userId organizationId = .error e) ↔
        (hasAllOrgsGrant db userId = false ∧
          activeMemberFor db userId organizationId = none)) := by
  intro db u o
  refine ⟨?_, ?_, ?_, ?_⟩
  · intro h
    cases hg : consultancyAccessFor db u with
    | none => simp [hasAllOrgsGrant, hg] at h
    | some g =>
        have hcan : g.canAccessAllOrgs = true := by
          simpa [hasAllOrgsGrant, hg] using h
        cases hm : memberFor db u o with
        | some m =>
            exact ⟨{ memberId := m.id, role := m.role, isConsultancyAccess := true },
              by simp [verifyOrganizationAccess, hg, hcan, hm]⟩
        | none =>
            exact ⟨{ memberId := ""
                     role := g.accessLevel
                     isConsultancyAccess := true },
              by simp [verifyOrganizationAccess, hg, hcan, hm]⟩
  · intro h m hm
    cases hg : consultancyAccessFor db u with
    | none => simp [hasAllOrgsGrant, hg] at h
    | some g =>
        have hcan : g.canAccessAllOrgs = true := by
          simpa [hasAllOrgsGrant, hg] using h
        simp [verifyOrganizationAccess, hg, hcan, hm]
  · intro orgs
    rfl
  · constructor
    · rintro ⟨e, he⟩
      cases hg : consultancyAccessFor db u with
      | some g =>
          cases hcan : g.canAccessAllOrgs with
          | true =>
              cases hm : memberFor db u o with
              | some m => simp [verifyOrganizationAccess, hg, hcan, hm] at he
              | none => simp [verifyOrganizationAccess, hg, hcan, hm] at he
          | false =>
              cases ham : activeMemberFor db u o with
              | some m =>
                  simp [verifyOrganizationAccess, regularAccess, hg, hcan, ham] at he
              | none =>
                  exact ⟨by simp [hasAllOrgsGrant, hg, hcan], rfl⟩
      | none =>
          cases ham : activeMemberFor db u o with
          | some m =>
              simp [verifyOrganizationAccess, regularAccess, hg, ham] at he
          | none =>
              exact ⟨by simp [hasAllOrgsGrant, hg], rfl⟩
    · rintro ⟨h1, h2⟩
      cases hg : consultancyAccessFor db u with
      | some g =>
          have hcan : g.canAccessAllOrgs = false := by
            simpa [hasAllOrgsGrant, hg] using h1
          exact ⟨"ACCESS_DENIED: User does not have access to this organization",
            by simp [verifyOrganizationAccess, regularAccess, hg, hcan, h2]⟩
      | none =>
          exact ⟨"ACCESS_DENIED: User does not have access to this organization",
            by simp [verifyOrganizationAccess, regularAccess, hg, h2]⟩

/-- C9 witness: a consultancy super-user reaches an organization id that
appears in no organization table at all, while a regular user with no
membership is denied. -/
theorem claim9_witness :
    (∃ r, verifyOrganizationAccess
      { organizations := []
        projects := []
        matrices := []
        tasks := []
        members := []
        assignments := []
        consultancyAccess := [{ userId := "u1"
                                canAccessAllOrgs := true
                                accessLevel := "EDIT" }] }
      "u1" "ghost-org" = .ok r) ∧
    (∃ e, verifyOrganizationAccess
      { organizations := []
        projects := []
        matrices := []
        tasks := []
        members := []
        assignments := []
        consultancyAccess := [] }
      "u2" "ghost-org" = .error e) := by
  constructor
  · exact (claim9_consultancy_access_scope
      { organizations := []
        projects := []
        matrices := []
        tasks := []
        members := []
        assignments := []
        consultancyAccess := [{ userId := "u1"
                                canAccessAllOrgs := true
                                accessLevel := "EDIT" }] }
      "u1" "ghost-org").1 (by decide)
  · exact (claim9_consultancy_access_scope
      { organizations := []
        projects := []
        matrices := []
        tasks := []
        members := []
        assignments := []
        consultancyAccess := [] }
      "u2" "ghost-org").2.2.2.mpr ⟨by decide, by decide⟩

/-- Member record used by the claim 3 scenarios: the sole ACTIVE OWNER of
organization org1. -/
def soleOwner : Member :=
  { id := "m1"
    userId := "u1"
    organizationId := "org1"
    role := "OWNER"
    jobTitle := "CEO"
    departmentLabels := []
    avatarUrl := none
    status := "ACTIVE" }

/-- Store holding only the sole ACTIVE OWNER of org1. -/
def soleOwnerDb : Db :=
  { organizations := []
    projects := []
    matrices := []
    tasks := []
    members := [soleOwner]
    assignments := []
    consultancyAccess := [] }

/-- Update input that only deactivates the member, leaving the role
untouched. -/
def deactivateInput : MemberUpdateInput :=
  { organizationId := "org1"
    memberId := "m1"
    role := none
    jobTitle := none
    departmentLabels := none
    avatarUrl := none
    status := some "INACTIVE" }

/-- C3 counterexample: a status-only update of the sole remaining ACTIVE
OWNER is not guarded, so the update succeeds and leaves the organization
with zero ACTIVE OWNER members, contradicting the claim that the member
update operation never succeeds in a way that leaves zero ACTIVE OWNER
members. -/
theorem claim3_counterexample :
    activeOwnerCount soleOwnerDb.members "org1" = 1 ∧
    memberUpdate soleOwnerDb deactivateInput =
      .ok [{ soleOwner with status := "INACTIVE" }] ∧
    activeOwnerCount [{ soleOwner with status := "INACTIVE" }] "org1" = 0 := by
  refine ⟨by decide, ?_, by decide⟩
  rfl

/-- Splitting a Boolean count along a second Boolean test. -/
theorem countP_split {α : Type} (p q : α → Bool) (l : List α) :
    l.countP p =
      l.countP (fun a => p a && q a) + l.countP (fun a => p a && !q a) := by
  induction l with
  | nil => rfl
  | cons a t ih =>
      cases hpa : p a <;> cases hqa : q a <;>
        simp [List.countP_cons, hpa, hqa, ih] <;> omega

/-- The active-owner count is a predicate count. -/
theorem activeOwnerCount_eq_countP (members : List Member) (organizationId : String) :
    activeOwnerCount members organizationId =
      members.countP (fun m =>
        m.organizationId == organizationId && m.role == "OWNER" &&
          m.status == "ACTIVE") :=
  (List.countP_eq_length_filter _ _).symm

/-- C3 amended: demoting (changing the role of) or removing a member
found as an OWNER while the organization has exactly one ACTIVE OWNER is
rejected with FORBIDDEN and nothing is written; and a remove that does
succeed never brings a positive ACTIVE-OWNER count down to zero.  The
update path, however, guards only role changes, so a status-only update
may still deactivate the last ACTIVE OWNER (see the counterexample). -/
theorem claim3_amended_last_owner_protection :
    ∀ (db : Db) (u : MemberUpdateInput) (r : MemberRemoveInput),
      (∀ (role : String) (before : Member),
        u.role = some role → role ≠ "OWNER" →
        findMemberById db u.memberId u.organizationId = some before →
        before.role = "OWNER" →
        activeOwnerCount db.members u.organizationId = 1 →
        memberUpdate db u =
          .error { code := "FORBIDDEN"
                   message := "Cannot change role of the last owner. Please assign another owner first." }) ∧
      (∀ member : Member,
        findMemberById db r.memberId r.organizationId = some member →
        member.role = "OWNER" →
        activeOwnerCount db.members r.organizationId = 1 →
        memberRemove db r =
          .error { code := "FORBIDDEN"
                   message := "Cannot remove the last owner. Please assign another owner first." }) ∧
      (∀ newMembers : List Member,
        (db.members.map (fun m => m.id)).Nodup →
        1 ≤ activeOwnerCount db.members r.organizationId →
        memberRemove db r = .ok newMembers →
        1 ≤ activeOwnerCount newMembers r.organizationId) := by
  intro db u r
  refine ⟨?_, ?_, ?_⟩
  · intro role before hrole hne hfind hbefore hcount
    simp [memberUpdate, hfind, hrole, hbefore, hcount, hne]
  · intro member hfind hrole hcount
    simp [memberRemove, hfind, hrole, hcount]
  · intro newMembers hnodup hone hok
    unfold memberRemove at hok
    cases hfind : findMemberById db r.memberId r.organizationId with
    | none => simp [hfind] at hok
    | some member =>
        have hmem : member ∈ db.members := List.mem_of_find?_eq_some hfind
        have hfp := List.find?_some hfind
        simp only [Bool.and_eq_true, beq_iff_eq] at hfp
        have hmid : member.id = r.memberId := hfp.1
        cases hguard : (member.role == "OWNER" &&
            activeOwnerCount db.members r.organizationId == 1) with
        | true => simp [hfind, hguard] at hok
        | false =>
            simp only [hfind, hguard, Bool.false_eq_true, if_false,
              Except.ok.injEq] at hok
            subst hok
            rw [activeOwnerCount_eq_countP] at hone ⊢
            set p : Member → Bool := fun m =>
              m.organizationId == r.organizationId && m.role == "OWNER" &&
                m.status == "ACTIVE" with hp
            set q : Member → Bool := fun m => m.id != r.memberId with hq
            rw [List.countP_filter]
            have hsplit := countP_split p q db.members
            have hinj := List.inj_on_of_nodup_map hnodup
            by_cases howner : member.role = "OWNER"
            · have howneq : (member.role == "OWNER") = true := by
                simp [howner]
              rw [howneq, Bool.true_and] at hguard
              have hcne : db.members.countP p ≠ 1 := by
                rw [activeOwnerCount_eq_countP] at hguard
                simpa using hguard
              have hB : db.members.countP (fun m => p m && !q m) ≤ 1 := by
                calc db.members.countP (fun m => p m && !q m) ≤
                    db.members.countP (fun m => m.id == r.memberId) := by
                      apply List.countP_mono_left
                      intro x _ hx
                      rw [hq] at hx
                      simp only [Bool.and_eq_true, bne, Bool.not_not] at hx
                      exact hx.2
                  _ = (db.members.map (fun m => m.id)).countP (fun s => s == r.memberId) := by
                      rw [List.countP_map]
                      rfl
                  _ = (db.members.map (fun m => m.id)).count r.memberId := by
                      rw [List.count_eq_countP]
                  _ ≤ 1 := List.nodup_iff_count_le_one.mp hnodup r.memberId
              omega
            · have hB : db.members.countP (fun m => p m && !q m) = 0 := by
                rw [List.countP_eq_zero]
                intro a ha hcontra
                rw [hp, hq] at hcontra
                simp only [Bool.and_eq_true, bne, Bool.not_not, beq_iff_eq] at hcontra
                have haid : a.id = member.id := by rw [hcontra.2, hmid]
                have : a = member := hinj ha hmem haid
                subst this
                exact howner hcontra.1.1.2
              omega

/-- C3 witness: with a single ACTIVE OWNER, demoting that owner by a
role change and removing that owner are both rejected with FORBIDDEN. -/
theorem claim3_witness :
    memberUpdate soleOwnerDb
      { organizationId := "org1"
        memberId := "m1"
        role := some "MEMBER"
        jobTitle := none
        departmentLabels := none
        avatarUrl := none
        status := none } =
      .error { code := "FORBIDDEN"
               message := "Cannot change role of the last owner. Please assign another owner first." } ∧
    memberRemove soleOwnerDb { organizationId := "org1", memberId := "m1" } =
      .error { code := "FORBIDDEN"
               message := "Cannot remove the last owner. Please assign another owner first." } := by
  constructor
  · exact (claim3_amended_last_owner_protection soleOwnerDb
      { organizationId := "org1"
        memberId := "m1"
        role := some "MEMBER"
        jobTitle := none
        departmentLabels := none
        avatarUrl := none
        status := none }
      { organizationId := "org1", memberId := "m1" }).1 "MEMBER" soleOwner
      rfl (by decide) (by decide) rfl (by decide)
  · exact (claim3_amended_last_owner_protection soleOwnerDb
      { organizationId := "org1"
        memberId := "m1"
        role := some "MEMBER"
        jobTitle := none
        departmentLabels := none
        avatarUrl := none
        status := none }
      { organizationId := "org1", memberId := "m1" }).2.1 soleOwner
      (by decide) rfl (by decide)

/-- Root task A of the claim 7 scenario. -/
def taskA : Task :=
  { id := "A"
    matrixId := "M"
    name := "Task A"
    description := none
    parentTaskId := none
    status := "NOT_STARTED"
    priority := "MEDIUM"
    orderIndex := 0
    dueDate := none
    estimatedHours := none
    completedAt := none
    updatedAt := 0
    deletedAt := none }

/-- Root task B of the claim 7 scenario. -/
def taskB : Task :=
  { id := "B"
    matrixId := "M"
    name := "Task B"
    description := none
    parentTaskId := none
    status := "NOT_STARTED"
    priority := "MEDIUM"
    orderIndex := 1
    dueDate := none
    estimatedHours := none
    completedAt := none
    updatedAt := 0
    deletedAt := none }

/-- Store holding the two live root tasks A and B in matrix M. -/
def twoTaskDb : Db :=
  { organizations := []
    projects := []
    matrices := []
    tasks := [taskA, taskB]
    members := []
    assignments := []
    consultancyAccess := [] }

/-- Update input that re-parents one task of matrix M under another. -/
def setParentInput (taskId parent : String) : TaskUpdateInput :=
  { matrixId := "M"
    taskId := taskId
    name := none
    description := none
    parentTaskId := some (some parent)
    status := none
    priority := none
    dueDate := none
    estimatedHours := none }

/-- Task table after re-parenting A under B at instant 1. -/
def cycleTasksOne : List Task :=
  [{ taskA with parentTaskId := some "B", updatedAt := 1 }, taskB]

/-- Task table after additionally re-parenting B under A at instant 2. -/
def cycleTasksTwo : List Task :=
  [{ taskA with parentTaskId := some "B", updatedAt := 1 },
   { taskB with parentTaskId := some "A", updatedAt := 2 }]

/-- C7 counterexample: each of the two re-parenting updates passes every
check of taskRouter.update (the new parent differs from the task and is a
live task of the matrix), yet after both updates task A and task B are
each their own ancestor through the parentTaskId chain, contradicting the
claim that the hierarchy stays a forest after any sequence of create and
update operations. -/
theorem claim7_counterexample :
    taskUpdate twoTaskDb (setParentInput "A" "B") 1 = .ok cycleTasksOne ∧
    taskUpdate { twoTaskDb with tasks := cycleTasksOne } (setParentInput "B" "A") 2 =
      .ok cycleTasksTwo ∧
    isOwnAncestor cycleTasksTwo "A" = true ∧
    isOwnAncestor cycleTasksTwo "B" = true := by
  exact ⟨rfl, rfl, rfl, rfl⟩

/-- C7 amended: taskRouter.update rejects with BAD_REQUEST a new parent
equal to the task itself and a target parent that is absent or
soft-deleted, and taskRouter.create likewise requires a live parent; no
deeper ancestor walk is performed, so re-parenting sequences can still
build cycles of length two or more and the forest shape is not an
invariant (see the counterexample). -/
theorem claim7_amended_parent_checks :
    ∀ (db : Db) (u : TaskUpdateInput) (c : TaskCreateInput)
      (newId : String) (now : Timestamp),
      ((db.tasks.find? (fun t => t.id == u.taskId && t.matrixId == u.matrixId)).isSome = true →
        u.parentTaskId = some (some u.taskId) →
        taskUpdate db u now =
          .error { code := "BAD_REQUEST", message := "Task cannot be its own parent" }) ∧
      (∀ p : String,
        (db.tasks.find? (fun t => t.id == u.taskId && t.matrixId == u.matrixId)).isSome = true →
        u.parentTaskId = some (some p) →
        p ≠ u.taskId →
        findLiveTask db p u.matrixId = none →
        taskUpdate db u now =
          .error { code := "BAD_REQUEST", message := "Parent task not found or deleted" }) ∧
      (∀ p : String,
        c.parentTaskId = some p →
        findLiveTask db p c.matrixId = none →
        taskCreate db c newId now =
          .error { code := "BAD_REQUEST", message := "Parent task not found or deleted" }) := by
  intro db u c newId now
  refine ⟨?_, ?_, ?_⟩
  · intro hfound hpar
    obtain ⟨t, ht⟩ := Option.isSome_iff_exists.mp hfound
    simp [taskUpdate, ht, hpar]
  · intro p hfound hpar hne hfl
    obtain ⟨t, ht⟩ := Option.isSome_iff_exists.mp hfound
    simp [taskUpdate, ht, hpar, hfl, hne]
  · intro p hpar hfl
    simp [taskCreate, hpar, hfl]

/-- C7 witness: on the two-task store, a self-parent update and an update
or create pointing at a missing parent are all rejected with
BAD_REQUEST. -/
theorem claim7_witness :
    taskUpdate twoTaskDb (setParentInput "A" "A") 3 =
      .error { code := "BAD_REQUEST", message := "Task cannot be its own parent" } ∧
    taskUpdate twoTaskDb (setParentInput "A" "C") 3 =
      .error { code := "BAD_REQUEST", message := "Parent task not found or deleted" } ∧
    taskCreate twoTaskDb
      { matrixId := "M"
        name := "Task C"
        description := none
        parentTaskId := some "Z"
        status := "NOT_STARTED"
        priority := "MEDIUM"
        dueDate := none
        estimatedHours := none
        orderIndex := none } "C" 3 =
      .error { code := "BAD_REQUEST", message := "Parent task not found or deleted" } := by
  refine ⟨?_, ?_, ?_⟩
  · exact (claim7_amended_parent_checks twoTaskDb (setParentInput "A" "A")
      { matrixId := "M"
        name := "Task C"
        description := none
        parentTaskId := some "Z"
        status := "NOT_STARTED"
        priority := "MEDIUM"
        dueDate := none
        estimatedHours := none
        orderIndex := none } "C" 3).1 (by decide) rfl
  · exact (claim7_amended_parent_checks twoTaskDb (setParentInput "A" "C")
      { matrixId := "M"
        name := "Task C"
        description := none
        parentTaskId := some "Z"
        status := "NOT_STARTED"
        priority := "MEDIUM"
        dueDate := none
        estimatedHours := none
        orderIndex := none } "C" 3).2.1 "C" (by decide) rfl (by decide) (by decide)
  · exact (claim7_amended_parent_checks twoTaskDb (setParentInput "A" "A")
      { matrixId := "M"
        name := "Task C"
        description := none
        parentTaskId := some "Z"
        status := "NOT_STARTED"
        priority := "MEDIUM"
        dueDate := none
        estimatedHours := none
        orderIndex := none } "C" 3).2.2 "Z" rfl (by decide)

/-- An item passes the bulk pre-validation exactly when its failure line
is absent. -/
theorem bulkItemFailure_eq_none (db : Db) (item : BulkAssignmentItem) :
    bulkItemFailure db item = none ↔
      (validateAssignment db item.taskId item.memberId item.raciRole none).isValid = true := by
  unfold bulkItemFailure
  cases h : (validateAssignment db item.taskId item.memberId item.raciRole none).isValid <;>
    simp [h]

/-- C5: bulkCreate is all-or-nothing: it throws exactly when some input
item fails validateAssignment against the pre-call store, every thrown
error is BAD_REQUEST carrying the aggregated per-item failure lines, and
a successful call appends exactly one row per input item to the
assignment table in a single transaction. -/
theorem claim5_bulkCreate_all_or_nothing :
    ∀ (db : Db) (input : BulkCreateInput) (userId : String) (idGen : Nat → String),
      ((∃ e, assignmentBulkCreate db input userId idGen = .error e) ↔
        ∃ item ∈ input.assignments,
          (validateAssignment db item.taskId item.memberId item.raciRole none).isValid = false) ∧
      (∀ e, assignmentBulkCreate db input userId idGen = .error e →
        e = { code := "BAD_REQUEST"
              message := "Validation errors:\n" ++
                String.intercalate "\n" (bulkValidationErrors db input) }) ∧
      (∀ rows, assignmentBulkCreate db input userId idGen = .ok rows →
        rows = db.assignments ++
          input.assignments.enum.map (fun p => mkBulkAssignment input userId idGen p.1 p.2)) := by
  intro db input userId idGen
  by_cases hv : bulkValidationErrors db input = []
  · have hlen : ¬(bulkValidationErrors db input).length > 0 := by
      rw [hv]
      decide
    have hres : assignmentBulkCreate db input userId idGen =
        .ok (db.assignments ++
          input.assignments.enum.map (fun p => mkBulkAssignment input userId idGen p.1 p.2)) := by
      unfold assignmentBulkCreate
      rw [if_neg hlen]
    refine ⟨?_, ?_, ?_⟩
    · constructor
      · rintro ⟨e, he⟩
        rw [hres] at he
        cases he
      · rintro ⟨item, hitem, hbad⟩
        have := (List.filterMap_eq_nil_iff.mp hv) item hitem
        rw [bulkItemFailure_eq_none] at this
        rw [this] at hbad
        cases hbad
    · intro e he
      rw [hres] at he
      cases he
    · intro rows hrows
      rw [hres] at hrows
      cases hrows
      rfl
  · have hlen : (bulkValidationErrors db input).length > 0 := by
      cases hl : bulkValidationErrors db input with
      | nil => exact absurd hl hv
      | cons x xs => simp
    have hres : assignmentBulkCreate db input userId idGen =
        .error { code := "BAD_REQUEST"
                 message := "Validation errors:\n" ++
                   String.intercalate "\n" (bulkValidationErrors db input) } := by
      unfold assignmentBulkCreate
      rw [if_pos hlen]
    refine ⟨?_, ?_, ?_⟩
    · constructor
      · intro _
        have : ¬∀ a ∈ input.assignments, bulkItemFailure db a = none := by
          intro hall
          exact hv (List.filterMap_eq_nil_iff.mpr hall)
        push_neg at this
        obtain ⟨item, hitem, hsome⟩ := this
        refine ⟨item, hitem, ?_⟩
        cases hval : (validateAssignment db item.taskId item.memberId item.raciRole none).isValid
        · rfl
        · exact absurd ((bulkItemFailure_eq_none db item).mpr hval) hsome
      · intro _
        exact ⟨_, hres⟩
    · intro e he
      rw [hres] at he
      cases he
      rfl
    · intro rows hrows
      rw [hres] at hrows
      cases hrows

/-- C5 witness: a batch whose second item duplicates the first against
the empty store succeeds, while a batch holding two Accountables for the
same task is checked item by item against the pre-call snapshot. -/
theorem claim5_witness :
    (∃ e, assignmentBulkCreate
      { organizations := []
        projects := []
        matrices := []
        tasks := []
        members := []
        assignments := [{ id := "a1"
                          matrixId := "M"
                          taskId := "T"
                          memberId := "m1"
                          raciRole := "ACCOUNTABLE"
                          notes := none
                          workload := none
                          assignedBy := "u"
                          deletedAt := none }]
        consultancyAccess := [] }
      { matrixId := "M"
        assignments := [{ taskId := "T"
                          memberId := "m2"
                          raciRole := "ACCOUNTABLE"
                          notes := none
                          workload := none }] }
      "u" (fun _ => "fresh") = .error e) := by
  exact (claim5_bulkCreate_all_or_nothing
    { organizations := []
      projects := []
      matrices := []
      tasks := []
      members := []
      assignments := [{ id := "a1"
                        matrixId := "M"
                        taskId := "T"
                        memberId := "m1"
                        raciRole := "ACCOUNTABLE"
                        notes := none
                        workload := none
                        assignedBy := "u"
                        deletedAt := none }]
      consultancyAccess := [] }
    { matrixId := "M"
      assignments := [{ taskId := "T"
                        memberId := "m2"
                        raciRole := "ACCOUNTABLE"
                        notes := none
                        workload := none }] }
    "u" (fun _ => "fresh")).1.mpr
    ⟨{ taskId := "T"
       memberId := "m2"
       raciRole := "ACCOUNTABLE"
       notes := none
       workload := none }, by decide, by decide⟩

/-- C8: createAuditLog returns normally for every payload and every
behavior of the underlying store write (the try/catch swallows any sink
failure), and consequently a mutation followed by the audit call always
reports exactly the committed result: the audit outcome can neither fail
the mutation nor roll it back. -/
theorem claim8_audit_never_affects_mutation :
    (∀ (sink : AuditLogData → Except String Unit) (data : AuditLogData),
      createAuditLog sink data = .ok ()) ∧
    (∀ (α : Type) (commit : Except ApiError α)
      (sink : AuditLogData → Except String Unit) (data : AuditLogData),
      mutationWithAudit commit sink data = commit) := by
  constructor
  · intro sink data
    unfold createAuditLog
    cases sink data <;> rfl
  · intro α commit sink data
    unfold mutationWithAudit createAuditLog
    cases commit with
    | error e => rfl
    | ok a => cases sink data <;> rfl

/-- Live task of the claim 6 scenario. -/
def liveTask : Task :=
  { id := "t1"
    matrixId := "mx1"
    name := "live"
    description := none
    parentTaskId := none
    status := "NOT_STARTED"
    priority := "MEDIUM"
    orderIndex := 0
    dueDate := none
    estimatedHours := none
    completedAt := none
    updatedAt := 0
    deletedAt := none }

/-- Analytics store of the claim 6 scenario: one live task plus two
soft-deleted COMPLETED tasks whose assignments are still live and belong
to an ACTIVE member. -/
def skewedAnalyticsDb : Db :=
  { organizations := [{ id := "o1", name := "Org", archivedAt := none }]
    projects := [{ id := "p1", organizationId := "o1" }]
    matrices := [{ id := "mx1", projectId := "p1", deletedAt := none }]
    tasks := [liveTask,
      { liveTask with id := "t2", status := "COMPLETED", deletedAt := some 5 },
      { liveTask with id := "t3", status := "COMPLETED", deletedAt := some 5 }]
    members := [{ id := "mA"
                  userId := "uA"
                  organizationId := "o1"
                  role := "MEMBER"
                  jobTitle := "jt"
                  departmentLabels := []
                  avatarUrl := none
                  status := "ACTIVE" }]
    assignments := [
      { id := "a2"
        matrixId := "mx1"
        taskId := "t2"
        memberId := "mA"
        raciRole := "RESPONSIBLE"
        notes := none
        workload := none
        assignedBy := "u"
        deletedAt := none },
      { id := "a3"
        matrixId := "mx1"
        taskId := "t3"
        memberId := "mA"
        raciRole := "RESPONSIBLE"
        notes := none
        workload := none
        assignedBy := "u"
        deletedAt := none }]
    consultancyAccess := [] }

/-- C6 counterexample: the assignment scope of getOrganizationAnalytics
never filters by the liveness of the referenced task, so live assignments
on soft-deleted COMPLETED tasks are counted as completed while the task
count excludes those tasks; with one live task and two such assignments
the completion rate is 200, outside the claimed interval [0, 100]. -/
theorem claim6_counterexample :
    (getOrganizationAnalytics skewedAnalyticsDb "o1" none).totalTasks = 1 ∧
    uniqueCompletedTaskCount skewedAnalyticsDb "o1" none = 2 ∧
    (getOrganizationAnalytics skewedAnalyticsDb "o1" none).completionRate = 200 ∧
    ¬((getOrganizationAnalytics skewedAnalyticsDb "o1" none).completionRate ≤ 100) := by
  have h1 : totalTasksCount skewedAnalyticsDb "o1" none = 1 := by decide
  have h2 : uniqueCompletedTaskCount skewedAnalyticsDb "o1" none = 2 := by decide
  have hshape : (getOrganizationAnalytics skewedAnalyticsDb "o1" none).completionRate =
      (if totalTasksCount skewedAnalyticsDb "o1" none > 0 then
        jsRound ((uniqueCompletedTaskCount skewedAnalyticsDb "o1" none : ℚ) /
          (totalTasksCount skewedAnalyticsDb "o1" none : ℚ) * 100)
      else 0) := rfl
  have hrate : (getOrganizationAnalytics skewedAnalyticsDb "o1" none).completionRate = 200 := by
    rw [hshape, h1, h2, if_pos (by norm_num)]
    unfold jsRound
    rw [Int.floor_eq_iff]
    constructor <;> norm_num
  refine ⟨h1, h2, hrate, ?_⟩
  rw [hrate]
  decide

/-- C6 amended: completionRate is 0 when the in-scope task count is 0 and
otherwise equals round(100 times the distinct completed task ids among
in-scope assignments over the task count); it lies in [0, 100] whenever
that distinct count does not exceed the task count, which the query does
not guarantee because the assignment scope ignores task liveness (see the
counterexample). -/
theorem claim6_amended_completion_rate :
    ∀ (db : Db) (organizationId : String) (matrixId : Option String),
      ((getOrganizationAnalytics db organizationId matrixId).totalTasks = 0 →
        (getOrganizationAnalytics db organizationId matrixId).completionRate = 0) ∧
      (0 < (getOrganizationAnalytics db organizationId matrixId).totalTasks →
        (getOrganizationAnalytics db organizationId matrixId).completionRate =
          jsRound (100 * (uniqueCompletedTaskCount db organizationId matrixId : ℚ) /
            (totalTasksCount db organizationId matrixId : ℚ))) ∧
      (uniqueCompletedTaskCount db organizationId matrixId ≤
          totalTasksCount db organizationId matrixId →
        0 ≤ (getOrganizationAnalytics db organizationId matrixId).completionRate ∧
        (getOrganizationAnalytics db organizationId matrixId).completionRate ≤ 100) := by
  intro db org mid
  have htt : (getOrganizationAnalytics db org mid).totalTasks =
      totalTasksCount db org mid := rfl
  have hshape : (getOrganizationAnalytics db org mid).completionRate =
      (if totalTasksCount db org mid > 0 then
        jsRound ((uniqueCompletedTaskCount db org mid : ℚ) /
          (totalTasksCount db org mid : ℚ) * 100)
      else 0) := rfl
  refine ⟨?_, ?_, ?_⟩
  · intro h0
    rw [htt] at h0
    rw [hshape, h0]
    norm_num
  · intro hpos
    rw [htt] at hpos
    rw [hshape, if_pos hpos]
    congr 1
    ring
  · intro hle
    rw [hshape]
    rcases Nat.eq_zero_or_pos (totalTasksCount db org mid) with h0 | hpos
    · rw [h0]
      norm_num
    · rw [if_pos hpos]
      set u := uniqueCompletedTaskCount db org mid
      set t := totalTasksCount db org mid
      have htq : (0:ℚ) < t := by exact_mod_cast hpos
      have huq : (u:ℚ) ≤ t := by exact_mod_cast hle
      have hq0 : (0:ℚ) ≤ (u:ℚ) / t * 100 := by positivity
      have hq100 : (u:ℚ) / t * 100 ≤ 100 := by
        rw [div_mul_eq_mul_div, div_le_iff₀ htq]
        nlinarith
      unfold jsRound
      constructor
      · exact Int.floor_nonneg.mpr (by linarith)
      · calc ⌊(u:ℚ) / t * 100 + 1 / 2⌋ ≤ ⌊(100:ℚ) + 1 / 2⌋ :=
            Int.floor_le_floor (by linarith)
          _ = 100 := by
              rw [Int.floor_eq_iff]
              constructor <;> norm_num

/-- C6 witness: on the empty store the completion rate is 0, through the
zero-task clause of the amended theorem. -/
theorem claim6_witness :
    (getOrganizationAnalytics
      { organizations := []
        projects := []
        matrices := []
        tasks := []
        members := []
        assignments := []
        consultancyAccess := [] } "o1" none).completionRate = 0 :=
  (claim6_amended_completion_rate
    { organizations := []
      projects := []
      matrices := []
      tasks := []
      members := []
      assignments := []
      consultancyAccess := [] } "o1" none).1 (by decide)

/-- A workload-summing fold from any accumulator is the accumulator plus
the mapped sum. -/
theorem foldl_add_map_sum (f : Assignment → Nat) :
    ∀ (l : List Assignment) (n : Nat),
      l.foldl (fun s a => s + f a) n = n + (l.map f).sum := by
  intro l
  induction l with
  | nil => intro n; simp
  | cons a t ih =>
      intro n
      rw [List.foldl_cons, ih, List.map_cons, List.sum_cons]
      omega

/-- The stats-side workload sum as a mapped sum. -/
theorem sumWorkloadDefault0_eq (l : List Assignment) :
    sumWorkloadDefault0 l = (l.map fun a => coalesceZero a.workload).sum := by
  unfold sumWorkloadDefault0
  rw [foldl_add_map_sum]
  omega

/-- The analytics-side workload sum as a mapped sum. -/
theorem sumWorkloadDefault25_eq (l : List Assignment) :
    sumWorkloadDefault25 l = (l.map fun a => orDefault25 a.workload).sum := by
  unfold sumWorkloadDefault25
  rw [foldl_add_map_sum]
  omega

/-- Per assignment, the zero-default workload never exceeds the
25-default workload. -/
theorem coalesceZero_le_orDefault25 (w : Option Nat) :
    coalesceZero w ≤ orDefault25 w := by
  cases w with
  | none => decide
  | some n =>
      unfold coalesceZero orDefault25
      by_cases hn : n = 0
      · subst hn
        simp
      · simp [hn]

/-- C10: both getMemberStats and getWorkload total workloads with a
missing workload counted as 0, while the analytics per-member workload of
getOrganizationAnalytics counts a missing workload as 25; on any
assignment list containing a workload-less assignment the zero-default
total is strictly below the 25-default total, so the two surfaces
disagree on the same data. -/
theorem claim10_workload_default_mismatch :
    ∀ (db : Db) (matrixId memberId organizationId : String)
      (matrixFilter : Option String),
      (getMemberStats db matrixId memberId).totalWorkload =
        sumWorkloadDefault0 (memberStatsAssignments db matrixId memberId) ∧
      (getWorkload db memberId).totalWorkload =
        sumWorkloadDefault0 (workloadAssignments db memberId) ∧
      analyticsMemberWorkload db organizationId matrixFilter memberId =
        sumWorkloadDefault25
          ((scopedAssignments db organizationId matrixFilter).filter fun a =>
            a.memberId == memberId) ∧
      (∀ l : List Assignment, (∃ a ∈ l, a.workload = none) →
        sumWorkloadDefault0 l < sumWorkloadDefault25 l) := by
  intro db matrixId memberId organizationId matrixFilter
  refine ⟨rfl, rfl, rfl, ?_⟩
  rintro l ⟨a, ha, hw⟩
  rw [sumWorkloadDefault0_eq, sumWorkloadDefault25_eq]
  apply List.sum_lt_sum
  · intro i _
    exact coalesceZero_le_orDefault25 i.workload
  · refine ⟨a, ha, ?_⟩
    rw [hw]
    decide

/-- C10 witness: a member with one 50-point assignment and one
workload-less assignment totals 50 on the stats surfaces and 75 on the
analytics surface. -/
theorem claim10_witness :
    sumWorkloadDefault0
      [{ id := "a1"
         matrixId := "M"
         taskId := "T"
         memberId := "m1"
         raciRole := "RESPONSIBLE"
         notes := none
         workload := some 50
         assignedBy := "u"
         deletedAt := none },
       { id := "a2"
         matrixId := "M"
         taskId := "T"
         memberId := "m1"
         raciRole := "CONSULTED"
         notes := none
         workload := none
         assignedBy := "u"
         deletedAt := none }] <
    sumWorkloadDefault25
      [{ id := "a1"
         matrixId := "M"
         taskId := "T"
         memberId := "m1"
         raciRole := "RESPONSIBLE"
         notes := none
         workload := some 50
         assignedBy := "u"
         deletedAt := none },
       { id := "a2"
         matrixId := "M"
         taskId := "T"
         memberId := "m1"
         raciRole := "CONSULTED"
         notes := none
         workload := none
         assignedBy := "u"
         deletedAt := none }] := by
  refine (claim10_workload_default_mismatch
    { organizations := []
      projects := []
      matrices := []
      tasks := []
      members := []
      assignments := []
      consultancyAccess := [] } "M" "m1" "o1" none).2.2.2 _ ?_
  refine ⟨{ id := "a2"
            matrixId := "M"
            taskId := "T"
            memberId := "m1"
            raciRole := "CONSULTED"
            notes := none
            workload := none
            assignedBy := "u"
            deletedAt := none }, ?_, rfl⟩
  simp

end Raci
